import Mathlib

/-!
Verification of the procedure classification, port-validation and analytics
engine of the `ms-procedures` service.

The definitions below are a shallow embedding of the TypeScript source:

* `SurgeryService` (surgery service file): `createSurgery`, `getSurgeryById`,
  `confirmPorte`, `updateSurgeryStatus`, `mapProcedureToSurgery`,
  `calculateBasePrice`, `requiresAudit`, `createAuditRequest`.
* `ProcedureController.validatePorte` (`procedure.controller-fixed.ts`).
* `AnalyticsService.getEfficiencyMetrics` (analytics service file).

JavaScript numbers are modelled by `ℚ` (and `ℤ` where the source value is
integral), dates by their epoch-millisecond value (`ℤ`), and JSON request
fields that may be absent by `Option` or by a small `JSVal` type carrying
JavaScript truthiness.  Fallible operations return `Except`.
-/

namespace MsProcedures

/-- Enum `SurgeryComplexity` from `surgery.types.ts`. -/
inductive SurgeryComplexity
  | PORTE_1
  | PORTE_2
  | PORTE_3
  | PORTE_4
  | PORTE_ESPECIAL
deriving DecidableEq, Repr

/-- Enum `SurgeryStatus` from `surgery.types.ts`. -/
inductive SurgeryStatus
  | SCHEDULED
  | CONFIRMED
  | IN_PROGRESS
  | COMPLETED
  | CANCELLED
  | POSTPONED
deriving DecidableEq, Repr

/-- Enum `AuthorizationStatus` from `surgery.types.ts`. -/
inductive AuthorizationStatus
  | NOT_REQUIRED
  | PENDING
  | AUTHORIZED
  | DENIED
  | EXPIRED
deriving DecidableEq, Repr

/-- Enum `AuditStatus` from `surgery.types.ts`. -/
inductive AuditStatus
  | NOT_REQUIRED
  | PENDING_AUDIT
  | IN_AUDIT
  | APPROVED
  | REJECTED
  | REQUIRES_REVIEW
deriving DecidableEq, Repr

/-- The `baseRates` table inside `SurgeryService.calculateBasePrice`.
The complexity argument is a closed enum, so the JavaScript fallback
`baseRates[complexity] || 1000` never fires and is not modelled. -/
def baseRates : SurgeryComplexity → ℚ
  | .PORTE_1 => 500
  | .PORTE_2 => 1500
  | .PORTE_3 => 3000
  | .PORTE_4 => 5000
  | .PORTE_ESPECIAL => 8000

/-- Position of a complexity tier in the declared order
PORTE_1 < PORTE_2 < PORTE_3 < PORTE_4 < PORTE_ESPECIAL. -/
def tierIdx : SurgeryComplexity → ℕ
  | .PORTE_1 => 0
  | .PORTE_2 => 1
  | .PORTE_3 => 2
  | .PORTE_4 => 3
  | .PORTE_ESPECIAL => 4

/-- `SurgeryService.calculateBasePrice`:
`Math.round(baseRate * Math.max(1, duration / 60))`.
Mathlib `round` is `⌊x + 1/2⌋`, which agrees with JavaScript `Math.round`
at every rational input.  The source body contains no error path: it never
throws, for negative durations included. -/
def calculateBasePrice (complexity : SurgeryComplexity) (duration : ℚ) : ℤ :=
  round (baseRates complexity * max 1 (duration / 60))

/-- `SurgeryService.requiresAudit`: membership of the complexity in
`[PORTE_3, PORTE_4, PORTE_ESPECIAL]`. -/
def requiresAudit (complexity : SurgeryComplexity) : Bool :=
  complexity = .PORTE_3 ∨ complexity = .PORTE_4 ∨ complexity = .PORTE_ESPECIAL

end MsProcedures

namespace MsProcedures

/-- Base rates are nonnegative (by enumeration of the table). -/
theorem baseRates_nonneg (c : SurgeryComplexity) : 0 ≤ baseRates c := by
  cases c <;> norm_num [baseRates]

/-- C5: the PriceModel price equals the tier's fixed base rate multiplied by
`max 1 (duration / 60)` and rounded; for every duration `d ≤ 60` the price
equals the price at 60 minutes; the price is non-decreasing in the duration
beyond 60 minutes; and the base rates strictly increase along the tier order
PORTE_1 < PORTE_2 < PORTE_3 < PORTE_4 < PORTE_ESPECIAL. -/
theorem C5_price_model :
    (∀ c d, calculateBasePrice c d = round (baseRates c * max 1 (d / 60))) ∧
    (∀ c d, d ≤ 60 → calculateBasePrice c d = calculateBasePrice c 60) ∧
    (∀ c d₁ d₂, 60 < d₁ → d₁ ≤ d₂ →
      calculateBasePrice c d₁ ≤ calculateBasePrice c d₂) ∧
    (∀ c₁ c₂, tierIdx c₁ < tierIdx c₂ → baseRates c₁ < baseRates c₂) := by
  refine ⟨fun c d => rfl, fun c d hd => ?_, fun c d₁ d₂ h60 hle => ?_, fun c₁ c₂ h => ?_⟩
  · have h1 : max 1 (d / 60) = (1 : ℚ) := max_eq_left (by linarith)
    have h2 : max 1 ((60 : ℚ) / 60) = (1 : ℚ) := by norm_num
    simp [calculateBasePrice, h1, h2]
  · have hdiv : d₁ / 60 ≤ d₂ / 60 := by
      exact div_le_div_of_nonneg_right hle (by norm_num) |>.trans_eq rfl
    have hmax : max (1 : ℚ) (d₁ / 60) ≤ max 1 (d₂ / 60) :=
      max_le_max le_rfl hdiv
    have hmul : baseRates c * max 1 (d₁ / 60) ≤ baseRates c * max 1 (d₂ / 60) :=
      mul_le_mul_of_nonneg_left hmax (baseRates_nonneg c)
    unfold calculateBasePrice
    rw [round_eq, round_eq]
    exact Int.floor_mono (by linarith)
  · revert h
    cases c₁ <;> cases c₂ <;> simp [tierIdx, baseRates] <;> norm_num

/-- Witness for C5 at concrete inputs. -/
theorem C5_price_model_witness :
    calculateBasePrice .PORTE_2 45 = calculateBasePrice .PORTE_2 60 ∧
    calculateBasePrice .PORTE_2 90 ≤ calculateBasePrice .PORTE_2 120 ∧
    baseRates .PORTE_1 < baseRates .PORTE_ESPECIAL :=
  ⟨C5_price_model.2.1 .PORTE_2 45 (by norm_num),
   C5_price_model.2.2.1 .PORTE_2 90 120 (by norm_num) (by norm_num),
   C5_price_model.2.2.2 .PORTE_1 .PORTE_ESPECIAL (by decide)⟩

/-- C9 counterexample: the claim says `price(complexity, d)` fails with
`InvalidInput` when `d < 0`, but `calculateBasePrice` in the source has no
error path at all (it never throws); at the concrete input
`(PORTE_1, -60)` it succeeds and returns the base rate 500. -/
theorem C9_counterexample : calculateBasePrice .PORTE_1 (-60) = 500 := by
  have h1 : max (1 : ℚ) ((-60) / 60) = 1 := by norm_num
  simp [calculateBasePrice, baseRates, h1]

/-- C9 amended: the PriceModel has no failure mode at all — it is a total
function; for every duration, including negative ones, it returns the rounded
product of the base rate and the clamped multiplier, and for `d < 0` the
multiplier clamps to 1 so the result is the rounded base rate. -/
theorem C9_no_failure (c : SurgeryComplexity) (d : ℚ) :
    calculateBasePrice c d = round (baseRates c * max 1 (d / 60)) ∧
    (d < 0 → calculateBasePrice c d = round (baseRates c)) := by
  refine ⟨rfl, fun hd => ?_⟩
  have h1 : max 1 (d / 60) = (1 : ℚ) := max_eq_left (by nlinarith)
  simp [calculateBasePrice, h1]

/-- Witness for the amended C9 at the concrete input `(PORTE_1, -60)`. -/
theorem C9_no_failure_witness :
    calculateBasePrice .PORTE_1 (-60) = round (baseRates .PORTE_1) :=
  (C9_no_failure .PORTE_1 (-60)).2 (by norm_num)

end MsProcedures

namespace MsProcedures

/-- A JSON request field as the controller sees it: absent (`undefined`),
the not-a-number value, a number (integral values, which covers every input
relevant to port validation), or a string. -/
inductive JSVal
  | undef
  | nan
  | num (n : ℤ)
  | str (s : String)
deriving DecidableEq, Repr

/-- JavaScript truthiness of a field value, as used by the guard
`if (!procedureCode || !reportedPorte)`. -/
def JSVal.truthy : JSVal → Bool
  | .undef => false
  | .nan => false
  | .num n => n ≠ 0
  | .str s => s ≠ ""

/-- Value of the leading run of decimal digits of a character list; `none`
(NaN) when the list does not start with a digit. -/
def leadingDigits (cs : List Char) : Option ℤ :=
  let ds := cs.takeWhile Char.isDigit
  if ds.isEmpty then none
  else some (ds.foldl (fun acc c => acc * 10 + ((c.toNat : ℤ) - 48)) 0)

/-- JavaScript `parseInt` on a string (radix 10): skip leading whitespace,
read an optional sign and then the leading decimal digits, ignoring any
trailing junk; `none` models NaN when no digit is found.  (The hexadecimal
`0x` corner of `parseInt` is outside every input this development touches.) -/
def parseIntStr (s : String) : Option ℤ :=
  match s.toList.dropWhile (fun c => c = ' ') with
  | '-' :: rest => (leadingDigits rest).map (fun n => -n)
  | '+' :: rest => leadingDigits rest
  | cs => leadingDigits cs

/-- JavaScript `parseInt` applied to a request field; numbers pass through,
everything unparsable becomes NaN (`none`). -/
def parseIntJS : JSVal → Option ℤ
  | .undef => none
  | .nan => none
  | .num n => some n
  | .str s => parseIntStr s

/-- Row of the `port_validation_rules` table (fields read by the controller). -/
structure PortValidationRule where
  procedureCode : String
  minimumPort : ℤ
  maximumPort : ℤ
  recommendedPort : ℤ
  isActive : Bool
deriving DecidableEq, Repr

/-- Severity levels of a port-validation verdict. -/
inductive Severity
  | INFO
  | LOW
  | MEDIUM
  | HIGH
deriving DecidableEq, Repr

/-- The response object built by `ProcedureController.validatePorte`
(fields the claims are about). -/
structure PorteVerdict where
  isValid : Bool
  procedureCode : String
  reportedPorte : JSVal
  expectedPorte : JSVal
  severity : Severity
deriving DecidableEq, Repr

/-- Caller-visible failure of `validatePorte` (HTTP 400 `sendError`). -/
inductive ValidateError
  | invalidInput (message : String)
deriving DecidableEq, Repr

/-- The `prisma.portValidationRule.findFirst` lookup with
`where: { procedureCode, isActive: true }`. -/
def findActiveRule (rules : List PortValidationRule) (code : String) :
    Option PortValidationRule :=
  rules.find? (fun r => r.procedureCode = code && r.isActive)

/-- `ProcedureController.validatePorte`.  The guard uses JavaScript
truthiness; `procedureCode` is modelled as a string whose missing/falsy case
is `""`.  With an active rule, `parseInt(reportedPorte)` may be NaN
(`none`), in which case both range comparisons are false (`isValid = false`)
and both severity tests on `diff = |NaN − recommended|` are false, so the
severity falls through to LOW. -/
def validatePorte (rules : List PortValidationRule) (procedureCode : String)
    (reportedPorte : JSVal) : Except ValidateError PorteVerdict :=
  if procedureCode = "" ∨ reportedPorte.truthy = false then
    .error (.invalidInput "procedureCode and reportedPorte are required")
  else
    match findActiveRule rules procedureCode with
    | none =>
        .ok { isValid := true, procedureCode := procedureCode,
              reportedPorte := reportedPorte, expectedPorte := reportedPorte,
              severity := .INFO }
    | some rule =>
        match parseIntJS reportedPorte with
        | some n =>
            .ok { isValid := decide (rule.minimumPort ≤ n ∧ n ≤ rule.maximumPort),
                  procedureCode := procedureCode,
                  reportedPorte := .num n,
                  expectedPorte := .num rule.recommendedPort,
                  severity :=
                    if rule.minimumPort ≤ n ∧ n ≤ rule.maximumPort then .INFO
                    else if 2 ≤ |n - rule.recommendedPort| then .HIGH
                    else if |n - rule.recommendedPort| = 1 then .MEDIUM
                    else .LOW }
        | none =>
            .ok { isValid := false,
                  procedureCode := procedureCode,
                  reportedPorte := .nan,
                  expectedPorte := .num rule.recommendedPort,
                  severity := .LOW }

end MsProcedures

namespace MsProcedures

/-- Rule used by concrete validation scenarios:
`{minimumPort: 2, maximumPort: 3, recommendedPort: 2}` for code PROC-1. -/
def ruleP23 : PortValidationRule :=
  { procedureCode := "PROC-1", minimumPort := 2, maximumPort := 3,
    recommendedPort := 2, isActive := true }

/-- C2: whenever an active rule exists for the code and the reported port
parses to the number `n`, any verdict `validatePorte` produces satisfies:
`isValid` iff `minimumPort ≤ n ≤ maximumPort`; `expectedPorte` is the rule's
`recommendedPort`; a valid verdict has severity INFO; and an invalid verdict
has severity HIGH iff `|n − recommendedPort| ≥ 2`, MEDIUM iff the difference
is 1, and LOW otherwise (difference 0).  (A reported port of 0 is rejected by
the presence guard before lookup, so no verdict exists for it and the
statement is conditional on a produced verdict.) -/
theorem C2_rule_validation (rules : List PortValidationRule) (code : String)
    (v : JSVal) (rule : PortValidationRule) (n : ℤ) (verdict : PorteVerdict)
    (hrule : findActiveRule rules code = some rule)
    (hnum : parseIntJS v = some n)
    (hok : validatePorte rules code v = .ok verdict) :
    (verdict.isValid = true ↔ rule.minimumPort ≤ n ∧ n ≤ rule.maximumPort) ∧
    verdict.expectedPorte = .num rule.recommendedPort ∧
    (verdict.isValid = true → verdict.severity = .INFO) ∧
    (verdict.isValid = false →
      ((verdict.severity = .HIGH ↔ 2 ≤ |n - rule.recommendedPort|) ∧
       (verdict.severity = .MEDIUM ↔ |n - rule.recommendedPort| = 1) ∧
       (verdict.severity = .LOW ↔ |n - rule.recommendedPort| = 0))) := by
  unfold validatePorte at hok
  by_cases hguard : code = "" ∨ v.truthy = false
  · simp [hguard] at hok
  · rw [if_neg hguard, hrule, hnum] at hok
    injection hok with hok
    subst hok
    by_cases hv : rule.minimumPort ≤ n ∧ n ≤ rule.maximumPort
    · simp [hv]
    · set d := |n - rule.recommendedPort| with hd
      have habs : 0 ≤ d := by rw [hd]; exact abs_nonneg _
      by_cases h2 : 2 ≤ d
      · have hne1 : d ≠ 1 := by omega
        have hne0 : d ≠ 0 := by omega
        simp [hv, h2, hne1, hne0]
      · by_cases h1 : d = 1
        · simp [hv, h2, h1]
        · have h0 : d = 0 := by omega
          simp [hv, h2, h1, h0]

/-- Witness for C2 at the spec scenario: rule `{2, 3, 2}`, reported port 4 —
the produced verdict is invalid with severity HIGH. -/
theorem C2_rule_validation_witness :
    let verdict : PorteVerdict :=
      { isValid := false, procedureCode := "PROC-1", reportedPorte := .num 4,
        expectedPorte := .num 2, severity := .HIGH }
    (verdict.isValid = true ↔ ruleP23.minimumPort ≤ (4 : ℤ) ∧ (4 : ℤ) ≤ ruleP23.maximumPort) ∧
    verdict.expectedPorte = .num ruleP23.recommendedPort ∧
    (verdict.isValid = true → verdict.severity = .INFO) ∧
    (verdict.isValid = false →
      ((verdict.severity = .HIGH ↔ 2 ≤ |(4 : ℤ) - ruleP23.recommendedPort|) ∧
       (verdict.severity = .MEDIUM ↔ |(4 : ℤ) - ruleP23.recommendedPort| = 1) ∧
       (verdict.severity = .LOW ↔ |(4 : ℤ) - ruleP23.recommendedPort| = 0))) :=
  C2_rule_validation [ruleP23] "PROC-1" (.num 4) ruleP23 4 _ (by rfl) (by rfl) (by rfl)

/-- C3 counterexample: the claim promises, for a code with no active rule,
a verdict with `isValid = true` regardless of the reported port value; but at
the concrete reported port 0 (a falsy value in JavaScript) the controller
rejects the request with `InvalidInput` and produces no verdict at all. -/
theorem C3_counterexample :
    findActiveRule [] "PROC-1" = none ∧
    validatePorte [] "PROC-1" (.num 0) =
      .error (.invalidInput "procedureCode and reportedPorte are required") :=
  ⟨rfl, rfl⟩

/-- C3 amended: for every code and reported port that pass the presence
guard (nonempty code, truthy reported port), if no active rule exists for
the code then `validatePorte` returns the permissive verdict
`isValid = true`, severity INFO, `expectedPorte` echoing the reported port —
whatever the reported value is (numeric or not). -/
theorem C3_no_rule_permissive (rules : List PortValidationRule) (code : String)
    (v : JSVal) (hrule : findActiveRule rules code = none)
    (hcode : code ≠ "") (hv : v.truthy = true) :
    validatePorte rules code v =
      .ok { isValid := true, procedureCode := code, reportedPorte := v,
            expectedPorte := v, severity := .INFO } := by
  unfold validatePorte
  rw [if_neg (by simp [hcode, hv]), hrule]

/-- Witness for the amended C3: empty rule set, code PROC-9, reported
port 7. -/
theorem C3_no_rule_permissive_witness :
    validatePorte [] "PROC-9" (.num 7) =
      .ok { isValid := true, procedureCode := "PROC-9", reportedPorte := .num 7,
            expectedPorte := .num 7, severity := .INFO } :=
  C3_no_rule_permissive [] "PROC-9" (.num 7) rfl (by decide) (by decide)

/-- C10 counterexample: the claim says a non-numeric `reportedPort` fails
with `InvalidInput` before any rule lookup; but the non-empty string "abc"
is truthy, so the guard passes, the rule lookup for PROC-1 is performed, and
a verdict is produced (`parseInt` yields NaN, hence `isValid = false` with
severity LOW under the active rule). -/
theorem C10_counterexample :
    validatePorte [ruleP23] "PROC-1" (.str "abc") =
      .ok { isValid := false, procedureCode := "PROC-1",
            reportedPorte := .nan, expectedPorte := .num 2,
            severity := .LOW } := by
  rfl

/-- C10 amended: a request whose `procedureCode` is missing (empty) or whose
`reportedPorte` is falsy (absent, NaN, the number 0, or the empty string)
fails with `InvalidInput`, uniformly in the rule set — so before any rule
lookup — and no verdict is produced; a present non-numeric `reportedPorte`
string is NOT rejected: lookup proceeds and a verdict is produced. -/
theorem C10_guard (rules : List PortValidationRule) (code : String)
    (v : JSVal) (h : code = "" ∨ v.truthy = false) :
    validatePorte rules code v =
      .error (.invalidInput "procedureCode and reportedPorte are required") := by
  unfold validatePorte
  rw [if_pos h]

/-- Witness for the amended C10: reported port 0 (falsy) with an active rule
present for the code. -/
theorem C10_guard_witness :
    validatePorte [ruleP23] "PROC-1" (.num 0) =
      .error (.invalidInput "procedureCode and reportedPorte are required") :=
  C10_guard [ruleP23] "PROC-1" (.num 0) (Or.inr (by decide))

end MsProcedures

namespace MsProcedures

/-- Row of the `patients` table (fields the service reads). -/
structure Patient where
  id : String
  fullName : String
deriving DecidableEq, Repr

/-- `CreateSurgeryRequest` from `surgery.types.ts` (fields the engine uses). -/
structure CreateSurgeryRequest where
  patientId : String
  procedureCode : String
  procedureName : String
  category : String
  complexity : SurgeryComplexity
  estimatedDuration : ℚ
  hospital : String
  requiresAuthorization : Option Bool
  createdBy : String
deriving DecidableEq, Repr

/-- `ConfirmPorteRequest` from `surgery.types.ts`. -/
structure ConfirmPorteRequest where
  complexity : SurgeryComplexity
  estimatedDuration : ℚ
  basePrice : ℚ
  confirmedBy : String
  notes : Option String
deriving DecidableEq, Repr

/-- Row of the `procedures` table: the columns SurgeryService reads and
writes.  `estimatedDuration` and `basePrice` are nullable columns. -/
structure StoredProcedure where
  id : String
  code : String
  name : String
  category : String
  complexity : SurgeryComplexity
  estimatedDuration : Option ℚ
  basePrice : Option ℚ
  status : SurgeryStatus
  patientId : String
  requiresAuthorization : Bool
deriving DecidableEq, Repr

/-- The in-memory `SurgeryProcedure` object (fields the claims are about). -/
structure SurgeryProcedure where
  id : String
  patientId : String
  patientName : String
  procedureCode : String
  procedureName : String
  complexity : SurgeryComplexity
  estimatedDuration : ℚ
  basePrice : ℚ
  status : SurgeryStatus
  requiresAuthorization : Bool
  authorizationStatus : AuthorizationStatus
  auditStatus : AuditStatus
deriving DecidableEq, Repr

/-- Snapshot of classification fields recorded inside an audit log entry
(`oldValues` / `newValues`). -/
structure AuditSnapshot where
  complexity : Option SurgeryComplexity
  estimatedDuration : Option ℚ
  basePrice : Option ℚ
  status : Option SurgeryStatus
  action : Option String
deriving DecidableEq, Repr

/-- Row of the `audit_logs` table (fields written by SurgeryService). -/
structure AuditLogEntry where
  action : String
  entity : String
  entityId : String
  userId : String
  userName : String
  userRole : String
  oldValues : AuditSnapshot
  newValues : AuditSnapshot
  patientId : String
  procedureId : String
deriving DecidableEq, Repr

/-- Priority attached to an AuditRequested message
(`PORTE_ESPECIAL → URGENT`, else `HIGH`). -/
inductive AuditPriority
  | HIGH
  | URGENT
deriving DecidableEq, Repr

/-- Domain events the service hands to the event bus. -/
inductive Event
  | surgeryCreated (p : SurgeryProcedure)
  | porteConfirmed (p : SurgeryProcedure)
  | surgeryStatusUpdated (p : SurgeryProcedure)
  | auditRequested (patientId procedureId : String) (priority : AuditPriority)
deriving DecidableEq, Repr

/-- Durable state behind the service: the write-database tables. -/
structure DB where
  patients : List Patient
  procedures : List StoredProcedure
  auditLogs : List AuditLogEntry
deriving DecidableEq, Repr

/-- Caller-visible failures of the lifecycle operations.  `publishFailed`
is the error an awaited publish throws: the `config/eventbus` module of
this repository does not define the four surgery publishers that
SurgeryService calls on the exported `eventBusService` (and the module's
generic `publishEvent` rethrows on a send failure), and the service's catch
blocks rethrow. -/
inductive ServiceError
  | patientNotFound
  | procedureNotFound
  | publishFailed
deriving DecidableEq, Repr

/-- `prisma.patient.findUnique({where: {id}})`. -/
def findPatient (db : DB) (pid : String) : Option Patient :=
  db.patients.find? (fun p => p.id = pid)

/-- `prisma.procedure.findUnique({where: {id}})`. -/
def findProcedure (db : DB) (id : String) : Option StoredProcedure :=
  db.procedures.find? (fun p => p.id = id)

/-- Outcome of one lifecycle operation.  The source persists its writes
before publishing, so when an awaited publish throws, the catch rethrows
(`publishFailed`) but the rows already written stay in place: the durable
state is returned alongside the caller-visible result.  The log records
each publish attempt with its outcome (`true` = delivered).  The `fails`
parameter of the operations says which attempts throw — with the eventbus
module the repository ships, every surgery publish attempt does, since the
awaited methods are absent. -/
structure OpResult where
  db : DB
  log : List (Event × Bool)
  result : Except ServiceError SurgeryProcedure
deriving Repr

/-- The row `prisma.procedure.create` writes in `createSurgery` (the
modelled columns). -/
def newStored (newId : String) (data : CreateSurgeryRequest) :
    StoredProcedure :=
  { id := newId, code := data.procedureCode, name := data.procedureName,
    category := data.category, complexity := data.complexity,
    estimatedDuration := some data.estimatedDuration,
    basePrice :=
      some ((calculateBasePrice data.complexity data.estimatedDuration : ℤ) : ℚ),
    status := .SCHEDULED, patientId := data.patientId,
    requiresAuthorization := data.requiresAuthorization.getD false }

/-- The `SurgeryProcedure` object `createSurgery` builds for the caller. -/
def newSurgery (newId : String) (patient : Patient)
    (data : CreateSurgeryRequest) : SurgeryProcedure :=
  { id := newId, patientId := data.patientId,
    patientName := patient.fullName,
    procedureCode := data.procedureCode,
    procedureName := data.procedureName,
    complexity := data.complexity,
    estimatedDuration := data.estimatedDuration,
    basePrice := ((calculateBasePrice data.complexity data.estimatedDuration : ℤ) : ℚ),
    status := .SCHEDULED,
    requiresAuthorization := data.requiresAuthorization.getD false,
    authorizationStatus :=
      if data.requiresAuthorization.getD false then .PENDING
      else .NOT_REQUIRED,
    auditStatus := .PENDING_AUDIT }

/-- `SurgeryService.createSurgery`.  `newId` stands for the row id the
storage layer generates.  The patient check precedes every write; the row
is persisted next; then `eventBusService.publishSurgeryCreated` is awaited
— an attempt that throws is rethrown by the catch, so the operation fails
after the row was persisted and before any audit request.  Only after a
delivered create event does `createAuditRequest` publish AuditRequested
for an audit-requiring complexity, inside its own try/catch that merely
logs a failure. -/
def createSurgery (fails : Event → Bool) (newId : String) (db : DB)
    (data : CreateSurgeryRequest) : OpResult :=
  match findPatient db data.patientId with
  | none => { db := db, log := [], result := .error .patientNotFound }
  | some patient =>
    let sp := newSurgery newId patient data
    let db1 : DB :=
      { db with procedures := db.procedures ++ [newStored newId data] }
    let created := Event.surgeryCreated sp
    if fails created then
      { db := db1, log := [(created, false)],
        result := .error .publishFailed }
    else if requiresAudit data.complexity then
      let audit := Event.auditRequested data.patientId newId
        (if data.complexity = .PORTE_ESPECIAL then .URGENT else .HIGH)
      { db := db1, log := [(created, true), (audit, !fails audit)],
        result := .ok sp }
    else
      { db := db1, log := [(created, true)], result := .ok sp }

/-- `SurgeryService.mapProcedureToSurgery` (fields the claims are about).
Both `estimatedDuration || 0` and `basePrice ? parseFloat(...) : 0` send a
null or 0 column to 0, i.e. `Option.getD 0`. -/
def mapProcedureToSurgery (patients : List Patient) (p : StoredProcedure) :
    SurgeryProcedure :=
  { id := p.id, patientId := p.patientId,
    patientName :=
      (((patients.find? (fun q => q.id = p.patientId)).map Patient.fullName)).getD "Unknown",
    procedureCode := p.code, procedureName := p.name,
    complexity := p.complexity,
    estimatedDuration := p.estimatedDuration.getD 0,
    basePrice := p.basePrice.getD 0,
    status := p.status,
    requiresAuthorization := p.requiresAuthorization,
    authorizationStatus :=
      if p.requiresAuthorization then .PENDING else .NOT_REQUIRED,
    auditStatus :=
      if requiresAudit p.complexity then .PENDING_AUDIT else .NOT_REQUIRED }

/-- `SurgeryService.getSurgeryById`. -/
def getSurgeryById (db : DB) (id : String) :
    Except ServiceError SurgeryProcedure :=
  match findProcedure db id with
  | none => .error .procedureNotFound
  | some p => .ok (mapProcedureToSurgery db.patients p)

/-- `prisma.procedure.update({where: {id}, data})`: rewrite the rows whose
id matches (ids are unique in the real database). -/
def updateWhereId (ps : List StoredProcedure) (id : String)
    (f : StoredProcedure → StoredProcedure) : List StoredProcedure :=
  ps.map (fun p => if p.id = id then f p else p)

/-- The porte-confirmation row update (`prisma.procedure.update` data). -/
def confirmUpd (confirmation : ConfirmPorteRequest) (p : StoredProcedure) :
    StoredProcedure :=
  { p with
    complexity := confirmation.complexity,
    estimatedDuration := some confirmation.estimatedDuration,
    basePrice := some confirmation.basePrice }

/-- The audit-log entry `confirmPorte` appends. -/
def confirmEntry (id : String) (confirmation : ConfirmPorteRequest)
    (procedure : StoredProcedure) : AuditLogEntry :=
  { action := "UPDATE", entity := "PROCEDURE", entityId := id,
    userId := confirmation.confirmedBy,
    userName := confirmation.confirmedBy, userRole := "SURGEON",
    oldValues := { complexity := some procedure.complexity,
                   estimatedDuration := procedure.estimatedDuration,
                   basePrice := procedure.basePrice, status := none,
                   action := none },
    newValues := { complexity := some confirmation.complexity,
                   estimatedDuration := some confirmation.estimatedDuration,
                   basePrice := some confirmation.basePrice, status := none,
                   action := some "PORTE_CONFIRMED" },
    patientId := procedure.patientId, procedureId := id }

/-- `SurgeryService.confirmPorte`: overwrite the classification fields with
the confirmed values (the confirmed price is stored as supplied, not
recomputed), append the audit log entry, then await
`eventBusService.publishPorteConfirmed` — a throwing attempt is rethrown
by the catch after the row update has already been persisted. -/
def confirmPorte (fails : Event → Bool) (db : DB) (id : String)
    (confirmation : ConfirmPorteRequest) : OpResult :=
  match findProcedure db id with
  | none => { db := db, log := [], result := .error .procedureNotFound }
  | some procedure =>
    let db1 : DB :=
      { db with
        procedures := updateWhereId db.procedures id (confirmUpd confirmation) }
    let db2 : DB :=
      { db1 with
        auditLogs := db1.auditLogs ++ [confirmEntry id confirmation procedure] }
    let sp := mapProcedureToSurgery db2.patients (confirmUpd confirmation procedure)
    let e := Event.porteConfirmed sp
    if fails e then
      { db := db2, log := [(e, false)], result := .error .publishFailed }
    else
      { db := db2, log := [(e, true)], result := .ok sp }

/-- The audit-log entry `updateSurgeryStatus` appends. -/
def statusEntry (id : String) (status : SurgeryStatus) (updatedBy : String)
    (procedure : StoredProcedure) : AuditLogEntry :=
  { action := "UPDATE", entity := "PROCEDURE", entityId := id,
    userId := updatedBy, userName := updatedBy,
    userRole := "MEDICAL_STAFF",
    oldValues := { complexity := none, estimatedDuration := none,
                   basePrice := none, status := some procedure.status,
                   action := none },
    newValues := { complexity := none, estimatedDuration := none,
                   basePrice := none, status := some status, action := none },
    patientId := procedure.patientId, procedureId := id }

/-- `SurgeryService.updateSurgeryStatus`: overwrite the status, append the
audit log entry, then await `eventBusService.publishSurgeryStatusUpdated` —
a throwing attempt is rethrown by the catch after the status write. -/
def updateSurgeryStatus (fails : Event → Bool) (db : DB) (id : String)
    (status : SurgeryStatus) (updatedBy : String) : OpResult :=
  match findProcedure db id with
  | none => { db := db, log := [], result := .error .procedureNotFound }
  | some procedure =>
    let db1 : DB :=
      { db with
        procedures := updateWhereId db.procedures id (fun p => { p with status := status }) }
    let db2 : DB :=
      { db1 with
        auditLogs := db1.auditLogs ++ [statusEntry id status updatedBy procedure] }
    let sp := mapProcedureToSurgery db2.patients { procedure with status := status }
    let e := Event.surgeryStatusUpdated sp
    if fails e then
      { db := db2, log := [(e, false)], result := .error .publishFailed }
    else
      { db := db2, log := [(e, true)], result := .ok sp }

end MsProcedures

namespace MsProcedures

/-- Rewriting the rows that match an id commutes with looking that id up,
when the rewrite preserves ids. -/
theorem find_updateWhereId (ps : List StoredProcedure) (id : String)
    (f : StoredProcedure → StoredProcedure) (hid : ∀ p, (f p).id = p.id) :
    (updateWhereId ps id f).find? (fun p => p.id = id) =
      (ps.find? (fun p => p.id = id)).map f := by
  induction ps with
  | nil => rfl
  | cons p ps ih =>
    by_cases h : p.id = id
    · simp [updateWhereId, List.find?_cons_of_pos, h, hid p]
    · simp only [updateWhereId, List.map_cons, if_neg h] at *
      rw [List.find?_cons_of_neg _ (by simp [h]),
        List.find?_cons_of_neg _ (by simp [h]), ih]

/-- The price computed at creation is never negative (the base rate is
nonnegative and the duration multiplier is at least 1). -/
theorem calculateBasePrice_nonneg (c : SurgeryComplexity) (d : ℚ) :
    (0 : ℤ) ≤ calculateBasePrice c d := by
  unfold calculateBasePrice
  rw [round_eq]
  have h0 : (0 : ℚ) ≤ baseRates c * max 1 (d / 60) :=
    mul_nonneg (baseRates_nonneg c) (le_trans zero_le_one (le_max_left _ _))
  exact Int.floor_nonneg.mpr (by linarith)

/-- Reading a procedure back after an id-preserving row update yields the
mapped updated row. -/
theorem getSurgeryById_after_update (db : DB) (id : String)
    (logs : List AuditLogEntry) (f : StoredProcedure → StoredProcedure)
    (hid : ∀ p, (f p).id = p.id) (procedure : StoredProcedure)
    (hfind : findProcedure db id = some procedure) :
    getSurgeryById
        { db with procedures := updateWhereId db.procedures id f,
                  auditLogs := logs } id =
      .ok (mapProcedureToSurgery db.patients (f procedure)) := by
  have h2 : findProcedure
      { db with procedures := updateWhereId db.procedures id f,
                auditLogs := logs } id = some (f procedure) := by
    unfold findProcedure at hfind ⊢
    show (updateWhereId db.procedures id f).find? (fun p => p.id = id) =
      some (f procedure)
    rw [find_updateWhereId db.procedures id f hid, hfind]
    rfl
  unfold getSurgeryById
  rw [h2]

/-- An existing patient means the row is appended whatever the publish
outcome: the write precedes the publish. -/
theorem createSurgery_db (fails : Event → Bool) (newId : String) (db : DB)
    (data : CreateSurgeryRequest) (patient : Patient)
    (h : findPatient db (CreateSurgeryRequest.patientId data) = some patient) :
    (createSurgery fails newId db data).db =
      { db with procedures := db.procedures ++ [newStored newId data] } := by
  unfold createSurgery
  rw [h]
  by_cases hf : fails (Event.surgeryCreated (newSurgery newId patient data)) = true
  · simp [hf]
  · by_cases hr : requiresAudit data.complexity = true
    · simp [hf, hr]
    · simp [hf, hr]

/-- The caller-visible result of create is determined by the fate of the
ProcedureCreated publish alone. -/
theorem createSurgery_result (fails : Event → Bool) (newId : String)
    (db : DB) (data : CreateSurgeryRequest) (patient : Patient)
    (h : findPatient db (CreateSurgeryRequest.patientId data) = some patient) :
    (createSurgery fails newId db data).result =
      (if fails (Event.surgeryCreated (newSurgery newId patient data)) then
        .error .publishFailed
       else .ok (newSurgery newId patient data)) := by
  unfold createSurgery
  rw [h]
  by_cases hf : fails (Event.surgeryCreated (newSurgery newId patient data)) = true
  · simp [hf]
  · by_cases hr : requiresAudit data.complexity = true
    · simp [hf, hr]
    · simp [hf, hr]

/-- Create returns the built record when the ProcedureCreated publish is
delivered, whatever happens to the audit-request attempt. -/
theorem createSurgery_result_ok (fails : Event → Bool) (newId : String)
    (db : DB) (data : CreateSurgeryRequest) (patient : Patient)
    (h : findPatient db (CreateSurgeryRequest.patientId data) = some patient)
    (hok : ∀ p, fails (Event.surgeryCreated p) = false) :
    (createSurgery fails newId db data).result =
      .ok (newSurgery newId patient data) := by
  rw [createSurgery_result fails newId db data patient h]
  simp [hok]

/-- After a delivered create event, the AuditRequested attempt is made
exactly for an audit-requiring complexity, with the complexity-derived
priority. -/
theorem createSurgery_log_ok (fails : Event → Bool) (newId : String)
    (db : DB) (data : CreateSurgeryRequest) (patient : Patient)
    (h : findPatient db (CreateSurgeryRequest.patientId data) = some patient)
    (hok : ∀ p, fails (Event.surgeryCreated p) = false) :
    (createSurgery fails newId db data).log.map Prod.fst =
      Event.surgeryCreated (newSurgery newId patient data) ::
        (if requiresAudit data.complexity then
          [Event.auditRequested (CreateSurgeryRequest.patientId data) newId
            (if data.complexity = .PORTE_ESPECIAL then .URGENT else .HIGH)]
         else []) := by
  unfold createSurgery
  rw [h]
  by_cases hr : requiresAudit data.complexity = true
  · simp [hok, hr]
  · simp [hok, hr]

/-- A throwing ProcedureCreated publish is rethrown: create fails after the
row was persisted, and the audit request is never attempted. -/
theorem createSurgery_fail (fails : Event → Bool) (newId : String)
    (db : DB) (data : CreateSurgeryRequest) (patient : Patient)
    (h : findPatient db (CreateSurgeryRequest.patientId data) = some patient)
    (hfail : ∀ p, fails (Event.surgeryCreated p) = true) :
    (createSurgery fails newId db data).result = .error .publishFailed ∧
    (createSurgery fails newId db data).log =
      [(Event.surgeryCreated (newSurgery newId patient data), false)] := by
  constructor
  · rw [createSurgery_result fails newId db data patient h]
    simp [hfail]
  · unfold createSurgery
    rw [h]
    simp [hfail]

/-- An existing procedure means the confirmed values and the audit-log
entry are written whatever the publish outcome. -/
theorem confirmPorte_db (fails : Event → Bool) (db : DB) (id : String)
    (confirmation : ConfirmPorteRequest) (procedure : StoredProcedure)
    (hfind : findProcedure db id = some procedure) :
    (confirmPorte fails db id confirmation).db =
      { db with
        procedures := updateWhereId db.procedures id (confirmUpd confirmation),
        auditLogs := db.auditLogs ++ [confirmEntry id confirmation procedure] } := by
  unfold confirmPorte
  rw [hfind]
  by_cases hf : fails (Event.porteConfirmed
      (mapProcedureToSurgery db.patients (confirmUpd confirmation procedure))) = true
  · simp [hf]
  · simp [hf]

/-- The caller-visible result of confirmPorte is determined by the fate of
the PorteConfirmed publish alone. -/
theorem confirmPorte_result (fails : Event → Bool) (db : DB) (id : String)
    (confirmation : ConfirmPorteRequest) (procedure : StoredProcedure)
    (hfind : findProcedure db id = some procedure) :
    (confirmPorte fails db id confirmation).result =
      (if fails (Event.porteConfirmed
          (mapProcedureToSurgery db.patients (confirmUpd confirmation procedure))) then
        .error .publishFailed
       else
        .ok (mapProcedureToSurgery db.patients (confirmUpd confirmation procedure))) := by
  unfold confirmPorte
  rw [hfind]
  by_cases hf : fails (Event.porteConfirmed
      (mapProcedureToSurgery db.patients (confirmUpd confirmation procedure))) = true
  · simp [hf]
  · simp [hf]

/-- ConfirmPorte returns the mapped updated record when its publish is
delivered. -/
theorem confirmPorte_result_ok (fails : Event → Bool) (db : DB) (id : String)
    (confirmation : ConfirmPorteRequest) (procedure : StoredProcedure)
    (hfind : findProcedure db id = some procedure)
    (hok : ∀ p, fails (Event.porteConfirmed p) = false) :
    (confirmPorte fails db id confirmation).result =
      .ok (mapProcedureToSurgery db.patients (confirmUpd confirmation procedure)) := by
  rw [confirmPorte_result fails db id confirmation procedure hfind]
  simp [hok]

/-- The caller-visible result of updateSurgeryStatus is determined by the
fate of the SurgeryStatusUpdated publish alone. -/
theorem updateSurgeryStatus_result (fails : Event → Bool) (db : DB)
    (id : String) (status : SurgeryStatus) (updatedBy : String)
    (procedure : StoredProcedure)
    (hfind : findProcedure db id = some procedure) :
    (updateSurgeryStatus fails db id status updatedBy).result =
      (if fails (Event.surgeryStatusUpdated
          (mapProcedureToSurgery db.patients { procedure with status := status })) then
        .error .publishFailed
       else
        .ok (mapProcedureToSurgery db.patients { procedure with status := status })) := by
  unfold updateSurgeryStatus
  rw [hfind]
  by_cases hf : fails (Event.surgeryStatusUpdated
      (mapProcedureToSurgery db.patients { procedure with status := status })) = true
  · simp [hf]
  · simp [hf]

/-- Patient used by the concrete engine scenarios. -/
def patW : Patient := { id := "pat-1", fullName := "Ana" }

/-- Stored procedure row used by the concrete engine scenarios. -/
def procRowW : StoredProcedure :=
  { id := "p1", code := "C-10", name := "Proc", category := "CARDIAC",
    complexity := .PORTE_2, estimatedDuration := some 90,
    basePrice := some 2250, status := .SCHEDULED, patientId := "pat-1",
    requiresAuthorization := false }

/-- Database used by the concrete engine scenarios. -/
def dbW : DB :=
  { patients := [patW], procedures := [procRowW], auditLogs := [] }

/-- Create request used by the concrete engine scenarios: PORTE_ESPECIAL
requires an audit request with URGENT priority, and authorization is
required. -/
def reqW : CreateSurgeryRequest :=
  { patientId := "pat-1", procedureCode := "C-20",
    procedureName := "Special", category := "NEURO",
    complexity := .PORTE_ESPECIAL, estimatedDuration := 120,
    hospital := "H-1", requiresAuthorization := some true,
    createdBy := "dr-a" }

/-- C1: the NotFound half and the persisted-row half of the claim hold — a
create with an unknown patient returns NotFound having written and
published nothing, and a create with a known patient persists one
SCHEDULED row priced by the PriceModel; when the ProcedureCreated publish
is delivered, the caller receives a record with the claimed authorization
and audit statuses and AuditRequested is attempted exactly for
PORTE_3/4/ESPECIAL with URGENT exactly for PORTE_ESPECIAL.  The event half
is broken by the code: the exported `eventBusService` defines no
`publishSurgeryCreated`, so the awaited attempt throws; evaluated at the
failing input (`dbW`, `reqW` with PORTE_ESPECIAL) under that
always-throwing publisher, create fails with the rethrown publish error
after persisting the row, and no AuditRequested is attempted although the
complexity requires audit. -/
theorem C1_create :
    (∀ fails newId db data,
      findPatient db (CreateSurgeryRequest.patientId data) = none →
      createSurgery fails newId db data =
        { db := db, log := [], result := .error .patientNotFound }) ∧
    (∀ fails newId db data patient,
      findPatient db (CreateSurgeryRequest.patientId data) = some patient →
      (createSurgery fails newId db data).db.procedures =
        db.procedures ++ [newStored newId data] ∧
      (newStored newId data).status = .SCHEDULED ∧
      (newStored newId data).basePrice =
        some ((calculateBasePrice data.complexity data.estimatedDuration : ℤ) : ℚ)) ∧
    (∀ fails newId db data patient,
      findPatient db (CreateSurgeryRequest.patientId data) = some patient →
      (∀ p, fails (Event.surgeryCreated p) = false) →
      (createSurgery fails newId db data).result =
        .ok (newSurgery newId patient data) ∧
      (newSurgery newId patient data).status = .SCHEDULED ∧
      (newSurgery newId patient data).authorizationStatus =
        (if (CreateSurgeryRequest.requiresAuthorization data).getD false
         then .PENDING else .NOT_REQUIRED) ∧
      (newSurgery newId patient data).auditStatus = .PENDING_AUDIT ∧
      (createSurgery fails newId db data).log.map Prod.fst =
        Event.surgeryCreated (newSurgery newId patient data) ::
          (if requiresAudit data.complexity then
            [Event.auditRequested (CreateSurgeryRequest.patientId data) newId
              (if data.complexity = .PORTE_ESPECIAL then .URGENT else .HIGH)]
           else [])) ∧
    requiresAudit reqW.complexity = true ∧
    (createSurgery (fun _ => true) "proc-9" dbW reqW).result =
      .error .publishFailed ∧
    (createSurgery (fun _ => true) "proc-9" dbW reqW).log =
      [(Event.surgeryCreated (newSurgery "proc-9" patW reqW), false)] ∧
    (createSurgery (fun _ => true) "proc-9" dbW reqW).db.procedures =
      dbW.procedures ++ [newStored "proc-9" reqW] := by
  refine ⟨?_, ?_, ?_, by decide, ?_, ?_, ?_⟩
  · intro fails newId db data h
    unfold createSurgery
    rw [h]
  · intro fails newId db data patient h
    exact ⟨by rw [createSurgery_db fails newId db data patient h], rfl, rfl⟩
  · intro fails newId db data patient h hok
    exact ⟨createSurgery_result_ok fails newId db data patient h hok, rfl, rfl,
      rfl, createSurgery_log_ok fails newId db data patient h hok⟩
  · exact (createSurgery_fail (fun _ => true) "proc-9" dbW reqW patW rfl
      (fun p => rfl)).1
  · exact (createSurgery_fail (fun _ => true) "proc-9" dbW reqW patW rfl
      (fun p => rfl)).2
  · rw [createSurgery_db (fun _ => true) "proc-9" dbW reqW patW rfl]

/-- C4: for every existing procedure, every confirmation and every publish
outcome, the confirmed values are written: reading the procedure back from
the state confirmPorte leaves yields exactly the confirmed complexity,
duration and operator-supplied price — never a PriceModel recomputation —
and when the PorteConfirmed publish is delivered the operation also
returns that same record to the caller. -/
theorem C4_confirm_roundtrip (fails : Event → Bool) (db : DB) (id : String)
    (confirmation : ConfirmPorteRequest) (procedure : StoredProcedure)
    (hfind : findProcedure db id = some procedure) :
    ∃ v, getSurgeryById (confirmPorte fails db id confirmation).db id = .ok v ∧
      v.complexity = confirmation.complexity ∧
      v.estimatedDuration = confirmation.estimatedDuration ∧
      v.basePrice = confirmation.basePrice ∧
      ((∀ p, fails (Event.porteConfirmed p) = false) →
        (confirmPorte fails db id confirmation).result = .ok v) := by
  refine ⟨mapProcedureToSurgery db.patients (confirmUpd confirmation procedure),
    ?_, rfl, rfl, rfl, ?_⟩
  · rw [confirmPorte_db fails db id confirmation procedure hfind]
    exact getSurgeryById_after_update db id _ (confirmUpd confirmation)
      (fun p => rfl) procedure hfind
  · intro hok
    exact confirmPorte_result_ok fails db id confirmation procedure hfind hok

/-- Porte confirmation used by the C4 witness: its price 999 differs from
the PriceModel recomputation (`calculateBasePrice PORTE_1 45 = 500`). -/
def confW : ConfirmPorteRequest :=
  { complexity := .PORTE_1, estimatedDuration := 45, basePrice := 999,
    confirmedBy := "dr-a", notes := none }

/-- Witness for C4 at a concrete database: the read-back record carries the
confirmed values, and the confirmed price is not the recomputed one. -/
theorem C4_confirm_roundtrip_witness :
    (∃ v, getSurgeryById (confirmPorte (fun _ => false) dbW "p1" confW).db "p1" = .ok v ∧
      v.complexity = confW.complexity ∧
      v.estimatedDuration = confW.estimatedDuration ∧
      v.basePrice = confW.basePrice ∧
      ((∀ p, (fun _ => false : Event → Bool) (Event.porteConfirmed p) = false) →
        (confirmPorte (fun _ => false) dbW "p1" confW).result = .ok v)) ∧
    confW.basePrice ≠
      ((calculateBasePrice confW.complexity confW.estimatedDuration : ℤ) : ℚ) :=
  ⟨C4_confirm_roundtrip (fun _ => false) dbW "p1" confW procRowW rfl, by
    have h1 : max (1 : ℚ) (45 / 60) = 1 := by norm_num
    simp [confW, calculateBasePrice, baseRates, h1]⟩

/-- Porte confirmation with a negative operator-supplied price. -/
def negConfW : ConfirmPorteRequest :=
  { complexity := .PORTE_1, estimatedDuration := 60, basePrice := -100,
    confirmedBy := "dr-a", notes := none }

/-- C6 counterexample: the claim says the basePrice written by confirmPorte
is nonnegative for every confirmation the operation accepts; but the
operation performs no validation, so the concrete confirmation with
basePrice = −100 is written: the stored row and the read-back record carry
−100 whatever the publish outcome (here the always-throwing publisher the
repository ships), and with a delivering publisher the operation even
returns the negative price as a success. -/
theorem C6_counterexample :
    ((confirmPorte (fun _ => true) dbW "p1" negConfW).db.procedures.map
      (fun p => p.basePrice)) = [some (-100)] ∧
    ((getSurgeryById (confirmPorte (fun _ => true) dbW "p1" negConfW).db "p1").toOption.map
      (fun v => v.basePrice)) = some (-100) ∧
    ((confirmPorte (fun _ => false) dbW "p1" negConfW).result.toOption.map
      (fun v => v.basePrice)) = some (-100) ∧
    (-100 : ℚ) < 0 :=
  ⟨rfl, rfl, rfl, by norm_num⟩

/-- C6 amended: the price computed at creation is nonnegative for every
input, and every row a create leaves in the database either was already
there or carries a nonnegative price; confirmPorte, however, validates
nothing and writes exactly the operator-supplied price — every record it
returns carries precisely `confirmation.basePrice` — so nonnegativity
after a confirmation holds exactly when the confirmation's own basePrice
is nonnegative. -/
theorem C6_basePrice_nonneg :
    (∀ c d, (0 : ℤ) ≤ calculateBasePrice c d) ∧
    (∀ fails newId db data patient,
      findPatient db (CreateSurgeryRequest.patientId data) = some patient →
      ∀ p ∈ (createSurgery fails newId db data).db.procedures,
        p ∈ db.procedures ∨ 0 ≤ p.basePrice.getD 0) ∧
    (∀ fails db id confirmation procedure,
      findProcedure db id = some procedure →
      0 ≤ ConfirmPorteRequest.basePrice confirmation →
      ∀ p ∈ (confirmPorte fails db id confirmation).db.procedures,
        p ∈ db.procedures ∨ 0 ≤ p.basePrice.getD 0) ∧
    (∀ fails db id confirmation v,
      (confirmPorte fails db id confirmation).result = .ok v →
      v.basePrice = ConfirmPorteRequest.basePrice confirmation) := by
  refine ⟨calculateBasePrice_nonneg, ?_, ?_, ?_⟩
  · intro fails newId db data patient h p hp
    rw [createSurgery_db fails newId db data patient h] at hp
    simp only [List.mem_append, List.mem_singleton] at hp
    rcases hp with hmem | rfl
    · exact Or.inl hmem
    · right
      show (0 : ℚ) ≤ ((calculateBasePrice data.complexity data.estimatedDuration : ℤ) : ℚ)
      exact_mod_cast calculateBasePrice_nonneg data.complexity data.estimatedDuration
  · intro fails db id confirmation procedure hfind hnn p hp
    rw [confirmPorte_db fails db id confirmation procedure hfind] at hp
    replace hp : p ∈ updateWhereId db.procedures id (confirmUpd confirmation) := hp
    unfold updateWhereId at hp
    rw [List.mem_map] at hp
    obtain ⟨q, hq, hfq⟩ := hp
    by_cases hcase : q.id = id
    · right
      rw [← hfq, if_pos hcase]
      exact hnn
    · left
      rw [← hfq, if_neg hcase]
      exact hq
  · intro fails db id confirmation v hok
    cases hfind : findProcedure db id with
    | none =>
      unfold confirmPorte at hok
      rw [hfind] at hok
      simp at hok
    | some procedure =>
      rw [confirmPorte_result fails db id confirmation procedure hfind] at hok
      by_cases hf : fails (Event.porteConfirmed
          (mapProcedureToSurgery db.patients (confirmUpd confirmation procedure))) = true
      · rw [if_pos hf] at hok
        simp at hok
      · rw [if_neg hf] at hok
        injection hok with h
        exact h ▸ rfl

/-- Porte confirmation with a nonnegative operator-supplied price. -/
def posConfW : ConfirmPorteRequest :=
  { complexity := .PORTE_2, estimatedDuration := 80, basePrice := 500,
    confirmedBy := "dr-a", notes := none }

/-- Witness for the amended C6 at concrete inputs (the publisher the
repository ships: every attempt fails, yet the write goes through). -/
theorem C6_basePrice_nonneg_witness :
    (0 : ℤ) ≤ calculateBasePrice .PORTE_1 30 ∧
    (∀ p ∈ (confirmPorte (fun _ => true) dbW "p1" posConfW).db.procedures,
      p ∈ dbW.procedures ∨ 0 ≤ p.basePrice.getD 0) :=
  ⟨C6_basePrice_nonneg.1 .PORTE_1 30,
   C6_basePrice_nonneg.2.2.1 (fun _ => true) dbW "p1" posConfW procRowW rfl
     (by norm_num [posConfW])⟩

/-- C7 counterexample: an invocation in which the primary record is
successfully persisted but a publish failure changes the caller-visible
result: with every publish attempt failing (the state of the eventbus
module the repository ships), create returns failure even though the row
is in the database, while with a delivering publisher the same invocation
returns success. -/
theorem C7_counterexample :
    (createSurgery (fun _ => true) "proc-9" dbW reqW).db.procedures =
      dbW.procedures ++ [newStored "proc-9" reqW] ∧
    (createSurgery (fun _ => true) "proc-9" dbW reqW).result =
      .error .publishFailed ∧
    (createSurgery (fun _ => false) "proc-9" dbW reqW).result =
      .ok (newSurgery "proc-9" patW reqW) := by
  refine ⟨?_, ?_, ?_⟩
  · rw [createSurgery_db (fun _ => true) "proc-9" dbW reqW patW rfl]
  · exact (createSurgery_fail (fun _ => true) "proc-9" dbW reqW patW rfl
      (fun p => rfl)).1
  · exact createSurgery_result_ok (fun _ => false) "proc-9" dbW reqW patW rfl
      (fun p => rfl)

/-- C7 amended: a failure of the AuditRequested publication never changes
the caller-visible result or the durable state of create
(`createAuditRequest` catches and only logs); but a failure of the primary
lifecycle publication is rethrown — each of create, confirmPorte and
updateStatus returns failure when its primary event fails to publish, even
though the record mutation is already persisted. -/
theorem C7_publish_escalation :
    (∀ f₁ f₂ newId db data,
      (∀ p, f₁ (Event.surgeryCreated p) = f₂ (Event.surgeryCreated p)) →
      (createSurgery f₁ newId db data).result =
        (createSurgery f₂ newId db data).result ∧
      (createSurgery f₁ newId db data).db =
        (createSurgery f₂ newId db data).db) ∧
    (∀ fails newId db data patient,
      findPatient db (CreateSurgeryRequest.patientId data) = some patient →
      (∀ p, fails (Event.surgeryCreated p) = true) →
      (createSurgery fails newId db data).result = .error .publishFailed ∧
      (createSurgery fails newId db data).db.procedures =
        db.procedures ++ [newStored newId data]) ∧
    (∀ fails db id confirmation procedure,
      findProcedure db id = some procedure →
      (∀ p, fails (Event.porteConfirmed p) = true) →
      (confirmPorte fails db id confirmation).result = .error .publishFailed) ∧
    (∀ fails db id status actor procedure,
      findProcedure db id = some procedure →
      (∀ p, fails (Event.surgeryStatusUpdated p) = true) →
      (updateSurgeryStatus fails db id status actor).result =
        .error .publishFailed) := by
  refine ⟨?_, ?_, ?_, ?_⟩
  · intro f₁ f₂ newId db data hagree
    cases h : findPatient db (CreateSurgeryRequest.patientId data) with
    | none =>
      constructor
      · unfold createSurgery
        rw [h]
      · unfold createSurgery
        rw [h]
    | some patient =>
      constructor
      · rw [createSurgery_result f₁ newId db data patient h,
          createSurgery_result f₂ newId db data patient h,
          hagree (newSurgery newId patient data)]
      · rw [createSurgery_db f₁ newId db data patient h,
          createSurgery_db f₂ newId db data patient h]
  · intro fails newId db data patient h hfail
    constructor
    · rw [createSurgery_result fails newId db data patient h]
      simp [hfail]
    · rw [createSurgery_db fails newId db data patient h]
  · intro fails db id confirmation procedure hfind hfail
    rw [confirmPorte_result fails db id confirmation procedure hfind]
    simp [hfail]
  · intro fails db id status actor procedure hfind hfail
    rw [updateSurgeryStatus_result fails db id status actor procedure hfind]
    simp [hfail]

/-- Witness for the amended C7 at concrete inputs: under the all-failing
publisher each of the three operations returns the publish failure, the
create row being persisted nonetheless. -/
theorem C7_publish_escalation_witness :
    ((createSurgery (fun _ => true) "proc-9" dbW reqW).result =
        .error .publishFailed ∧
     (createSurgery (fun _ => true) "proc-9" dbW reqW).db.procedures =
        dbW.procedures ++ [newStored "proc-9" reqW]) ∧
    (confirmPorte (fun _ => true) dbW "p1" confW).result =
      .error .publishFailed ∧
    (updateSurgeryStatus (fun _ => true) dbW "p1" .CONFIRMED "dr-a").result =
      .error .publishFailed :=
  ⟨C7_publish_escalation.2.1 (fun _ => true) "proc-9" dbW reqW patW rfl
      (fun p => rfl),
   C7_publish_escalation.2.2.1 (fun _ => true) dbW "p1" confW procRowW rfl
      (fun p => rfl),
   C7_publish_escalation.2.2.2 (fun _ => true) dbW "p1" .CONFIRMED "dr-a"
      procRowW rfl (fun p => rfl)⟩

end MsProcedures

namespace MsProcedures

/-- Columns of a procedure row selected by
`AnalyticsService.getEfficiencyMetrics`; dates are epoch milliseconds. -/
structure EffProc where
  scheduledDate : Option ℤ
  performedDate : Option ℤ
  duration : Option ℚ
deriving DecidableEq, Repr

/-- The `ProcedureEfficiency` result object. -/
structure ProcedureEfficiency where
  procedimentos_no_prazo : ℕ
  procedimentos_atrasados : ℕ
  taxa_pontualidade : ℚ
  tempo_medio_atraso : ℚ
  utilizacao_sala : ℚ
  procedimentos_por_dia : ℚ
deriving DecidableEq, Repr

/-- The query filter `performedDate: { gte: startDate, lte: endDate,
not: null }`. -/
def inWindow (startDate endDate : ℤ) (p : EffProc) : Bool :=
  match p.performedDate with
  | some t => startDate ≤ t ∧ t ≤ endDate
  | none => false

/-- One step of the `procedures.forEach` loop: the accumulator is
(on-time count, late count, total delay hours, total duration).
`diffHours = diffMs / (1000*60*60)`; on time when `diffHours ≤ 1`,
otherwise late and the delay is added; a truthy `duration` is added to the
room-utilization total. -/
def effStep (acc : ℕ × ℕ × ℚ × ℚ) (p : EffProc) : ℕ × ℕ × ℚ × ℚ :=
  let acc1 :=
    match p.scheduledDate, p.performedDate with
    | some s, some f =>
        let diffHours : ℚ := ((f - s : ℤ) : ℚ) / 3600000
        if diffHours ≤ 1 then (acc.1 + 1, acc.2.1, acc.2.2.1, acc.2.2.2)
        else (acc.1, acc.2.1 + 1, acc.2.2.1 + diffHours, acc.2.2.2)
    | _, _ => acc
  match p.duration with
  | some d => if d ≠ 0 then (acc1.1, acc1.2.1, acc1.2.2.1, acc1.2.2.2 + d)
              else acc1
  | none => acc1

/-- The `prisma.procedure.findMany` fetch of the metrics query: the rows
whose `performedDate` is set and inside the window. -/
def windowProcs (startDate endDate : ℤ) (table : List EffProc) :
    List EffProc :=
  table.filter (inWindow startDate endDate)

/-- `AnalyticsService.getEfficiencyMetrics` on a resolved window and the
procedure table.  `dias = Math.ceil((endDate − startDate) / 86400000)`.
In `utilizacao_sala`, rational division by zero is 0 where JavaScript
yields Infinity when `dias = 0`; no claim touches that field. -/
def getEfficiencyMetrics (startDate endDate : ℤ) (table : List EffProc) :
    ProcedureEfficiency :=
  let procedures := windowProcs startDate endDate table
  let acc := procedures.foldl effStep (0, 0, 0, 0)
  let total := procedures.length
  let dias : ℤ := ⌈((endDate - startDate : ℤ) : ℚ) / 86400000⌉
  { procedimentos_no_prazo := acc.1,
    procedimentos_atrasados := acc.2.1,
    taxa_pontualidade :=
      if 0 < total then ((acc.1 : ℚ) / (total : ℚ)) * 100 else 0,
    tempo_medio_atraso :=
      if 0 < acc.2.1 then acc.2.2.1 / (acc.2.1 : ℚ) else 0,
    utilizacao_sala := acc.2.2.2 / ((dias : ℚ) * 24 * 60) * 100,
    procedimentos_por_dia :=
      if 0 < dias then (total : ℚ) / (dias : ℚ) else 0 }

/-- A record carries both a scheduled and a performed date. -/
def hasBothDates (p : EffProc) : Bool :=
  p.scheduledDate.isSome && p.performedDate.isSome

/-- Delay of a record with both dates, in hours. -/
def delayHours (p : EffProc) : ℚ :=
  match p.scheduledDate, p.performedDate with
  | some s, some f => ((f - s : ℤ) : ℚ) / 3600000
  | _, _ => 0

/-- A record classified on time: both dates present and at most one hour of
delay. -/
def isOnTime (p : EffProc) : Bool :=
  hasBothDates p && delayHours p ≤ 1

/-- A record classified late: both dates present and more than one hour of
delay. -/
def isLate (p : EffProc) : Bool :=
  hasBothDates p && ¬(delayHours p ≤ 1)

end MsProcedures

namespace MsProcedures

/-- One forEach iteration, described by the classification predicates: the
on-time counter ticks exactly for an on-time record, the late counter and
the delay total for a late record, and the duration total gains the
record's duration (a null or 0 duration contributes 0). -/
theorem effStep_eq (acc : ℕ × ℕ × ℚ × ℚ) (p : EffProc) :
    effStep acc p =
      (acc.1 + (if isOnTime p = true then 1 else 0),
       acc.2.1 + (if isLate p = true then 1 else 0),
       acc.2.2.1 + (if isLate p = true then delayHours p else 0),
       acc.2.2.2 + p.duration.getD 0) := by
  obtain ⟨s, f, d⟩ := p
  cases s with
  | none =>
    cases d <;>
      simp [effStep, isOnTime, isLate, hasBothDates, delayHours] <;>
      first
        | (split_ifs <;> simp_all)
        | (rintro rfl; simp)
        | simp_all
  | some s =>
    cases f with
    | none =>
      cases d <;>
        simp [effStep, isOnTime, isLate, hasBothDates, delayHours] <;>
        first
          | (split_ifs <;> simp_all)
          | (rintro rfl; simp)
          | simp_all
    | some f =>
      by_cases h : ((f - s : ℤ) : ℚ) / 3600000 ≤ 1
      all_goals
        cases d <;>
          simp [effStep, isOnTime, isLate, hasBothDates, delayHours, h] <;>
          split_ifs <;>
          first
            | (exfalso; linarith)
            | simp_all
            | (rintro rfl; simp)

theorem effFold_characterization (l : List EffProc) (acc : ℕ × ℕ × ℚ × ℚ) :
    l.foldl effStep acc =
      (acc.1 + l.countP isOnTime,
       acc.2.1 + l.countP isLate,
       acc.2.2.1 + ((l.filter isLate).map delayHours).sum,
       acc.2.2.2 + (l.map (fun p => p.duration.getD 0)).sum) := by
  induction l generalizing acc with
  | nil => simp
  | cons p l ih =>
    rw [List.foldl_cons, effStep_eq, ih]
    by_cases ho : isOnTime p = true <;> by_cases hl : isLate p = true <;>
      simp [List.countP_cons, List.filter_cons, List.map_cons,
        List.sum_cons, ho, hl, Prod.ext_iff] <;>
      and_intros <;>
      first
        | omega
        | ring
        | simp_all

end MsProcedures

namespace MsProcedures

/-- C8: writing `P` for the rows fetched for the window (performedDate set
and inside it): the on-time counter counts exactly the rows of `P` with
both dates and at most one hour of delay, the late counter exactly those
with both dates and more than one hour; the punctuality rate is
`onTime / |P| × 100` when `P` is nonempty and 0 otherwise — `total` is the
number of fetched rows, including rows without a scheduledDate — and the
rate is 0 whenever no row of `P` has both dates; the average delay is the
mean of the delay hours over the late rows only, and 0 when none is late;
and a row is classified on time exactly when both dates are present and
the delay is at most one hour. -/
theorem C8_efficiency (startDate endDate : ℤ) (table : List EffProc) :
    (getEfficiencyMetrics startDate endDate table).procedimentos_no_prazo =
      (windowProcs startDate endDate table).countP isOnTime ∧
    (getEfficiencyMetrics startDate endDate table).procedimentos_atrasados =
      (windowProcs startDate endDate table).countP isLate ∧
    (getEfficiencyMetrics startDate endDate table).taxa_pontualidade =
      (if 0 < (windowProcs startDate endDate table).length then
        (((windowProcs startDate endDate table).countP isOnTime : ℚ) /
          ((windowProcs startDate endDate table).length : ℚ)) * 100
       else 0) ∧
    ((windowProcs startDate endDate table).countP hasBothDates = 0 →
      (getEfficiencyMetrics startDate endDate table).taxa_pontualidade = 0) ∧
    (getEfficiencyMetrics startDate endDate table).tempo_medio_atraso =
      (if 0 < (windowProcs startDate endDate table).countP isLate then
        (((windowProcs startDate endDate table).filter isLate).map delayHours).sum /
          ((windowProcs startDate endDate table).countP isLate : ℚ)
       else 0) ∧
    (∀ p, isOnTime p = true ↔ hasBothDates p = true ∧ delayHours p ≤ 1) ∧
    (∀ p, isLate p = true ↔ hasBothDates p = true ∧ ¬(delayHours p ≤ 1)) := by
  have hfold := effFold_characterization (windowProcs startDate endDate table) (0, 0, 0, 0)
  simp at hfold
  refine ⟨?_, ?_, ?_, ?_, ?_, ?_, ?_⟩
  · simp [getEfficiencyMetrics, hfold]
  · simp [getEfficiencyMetrics, hfold]
  · simp [getEfficiencyMetrics, hfold]
  · intro h0
    have hle : (windowProcs startDate endDate table).countP isOnTime ≤
        (windowProcs startDate endDate table).countP hasBothDates := by
      apply List.countP_mono_left
      intro p hp hip
      revert hip
      simp [isOnTime]
      exact fun a _ => a
    have h1 : (windowProcs startDate endDate table).countP isOnTime = 0 := by
      omega
    simp [getEfficiencyMetrics, hfold, h1]
  · simp [getEfficiencyMetrics, hfold]
  · intro p
    simp [isOnTime]
  · intro p
    simp [isLate]

end MsProcedures

namespace MsProcedures

/-- Procedure rows for the window scenario: performed 45 minutes after
schedule (2,700,000 ms), performed 90 minutes after schedule
(5,400,000 ms), and performed with no scheduled date. -/
def tableW : List EffProc :=
  [{ scheduledDate := some 0, performedDate := some 2700000, duration := some 30 },
   { scheduledDate := some 0, performedDate := some 5400000, duration := none },
   { scheduledDate := none, performedDate := some 1000, duration := none }]

/-- Witness for C8 on a one-day window over `tableW`: the 45-minute row is
on time, the 90-minute row is late with a 1.5-hour delay feeding the
average, and the counters agree with the classification counts. -/
theorem C8_efficiency_witness :
    (getEfficiencyMetrics 0 86400000 tableW).procedimentos_no_prazo =
      (windowProcs 0 86400000 tableW).countP isOnTime ∧
    (getEfficiencyMetrics 0 86400000 tableW).procedimentos_no_prazo = 1 ∧
    (getEfficiencyMetrics 0 86400000 tableW).procedimentos_atrasados = 1 ∧
    delayHours { scheduledDate := some 0, performedDate := some 5400000,
                 duration := none } = 3 / 2 ∧
    (getEfficiencyMetrics 0 86400000 tableW).tempo_medio_atraso = 3 / 2 :=
  ⟨(C8_efficiency 0 86400000 tableW).1,
   by norm_num [getEfficiencyMetrics, windowProcs, inWindow, tableW, effStep],
   by norm_num [getEfficiencyMetrics, windowProcs, inWindow, tableW, effStep],
   by norm_num [delayHours],
   by norm_num [getEfficiencyMetrics, windowProcs, inWindow, tableW, effStep]⟩

end MsProcedures
